import Mathlib

/-!
Verification of the market-monitoring / report-scheduling subsystem of the
vertBot Discord bot (`bot/main.py`, `api/market_data.py`).

Modelling conventions (shallow embedding of the Python source):
  - Python floats (prices, percentage changes) are modelled as exact
    rationals `ℚ`; all the code does with them is compare, subtract,
    divide and scale.
  - A calendar date (`datetime.date`) is modelled as an integer day
    number `Date := Int`; the source only compares dates for equality.
    A wall-clock instant (`datetime.datetime`) is modelled as an integer
    number of seconds `Time := Int`; the source only compares instants
    by difference against a TTL constant.
  - Python dicts are modelled as association lists with a
    replace-on-update write (`dictSet`) and a first-match lookup
    (`alookup`).
  - Raising code is modelled with `Except PyErr`; a `try/except` block
    becomes a `match` on the throwing expression.  Mutations performed
    before a raise persist, so throwing operations return their partial
    state updates alongside the `Except` result.
  - External collaborators (the Finnhub HTTP endpoint, Discord channel
    sends, the JSON config files) are oracles passed in as function
    arguments.
-/

namespace VertBot

/-- Calendar date (`datetime.date`), as a day number. -/
abbrev Date := Int

/-- Wall-clock instant (`datetime.datetime`), as a count of seconds. -/
abbrev Time := Int

/-- `BIG_CHANGE_THRESHOLD = 2.5` from `bot/main.py`. -/
def BIG_CHANGE_THRESHOLD : ℚ := 5 / 2

/-- `CACHE_TTL = 60` seconds from `api/market_data.py`. -/
def CACHE_TTL : Time := 60

/-- Key of the `announced_changes` dict: `(guild_id, symbol)`. -/
abbrev GKey := Int × String

/-- First-match lookup in an association list (Python `d.get(k)`). -/
def alookup {α β : Type} [DecidableEq α] (k : α) : List (α × β) → Option β
  | [] => none
  | e :: es => if e.1 = k then some e.2 else alookup k es

/-- Python dict write `d[k] = v`: replaces any existing binding for `k`. -/
def dictSet {α β : Type} [DecidableEq α] (k : α) (v : β) (m : List (α × β)) :
    List (α × β) :=
  (k, v) :: m.filter (fun e => decide (e.1 ≠ k))

/-- Python truthiness of `not x` where `x : Optional[float]`:
`not None` and `not 0.0` are both `True`. -/
def pyNot (x : Option ℚ) : Bool :=
  match x with
  | none => true
  | some v => decide (v = 0)

/-- State of the `MarketMonitor` class (`bot/main.py`, `__init__`).  The two
`asyncio.Task` handle fields are not part of the data model and are omitted. -/
structure Monitor where
  announced_changes : List (GKey × ℚ)
  daily_report_sent : Bool
  last_report_date : Option Date
  yesterdays_closes : List (String × ℚ)
  last_close_fetch : Option Date
  last_price_check : Option Time
  last_daily_report : Option Time
deriving Repr, DecidableEq

/-- The freshly constructed `MarketMonitor()`. -/
def Monitor.initial : Monitor :=
  { announced_changes := []
    daily_report_sent := false
    last_report_date := none
    yesterdays_closes := []
    last_close_fetch := none
    last_price_check := none
    last_daily_report := none }

/-- `MarketMonitor.should_announce_change` (`bot/main.py` lines 69-80).

```python
if abs(pct_change) < BIG_CHANGE_THRESHOLD:
    return False
key = (guild_id, symbol)
last_announcement = self.announced_changes.get(key)
if not last_announcement or abs(pct_change) > abs(last_announcement):
    self.announced_changes[key] = pct_change
    return True
return False
```

Note the Python truthiness test `not last_announcement` is true both when the
key is absent (`None`) and when the stored value is `0.0`; short-circuiting
makes the `abs(last_announcement)` operand reachable only when
`last_announcement` is a nonzero float, which `.getD 0` reflects. -/
def Monitor.should_announce_change (m : Monitor) (guild_id : Int)
    (symbol : String) (pct_change : ℚ) : Bool × Monitor :=
  if |pct_change| < BIG_CHANGE_THRESHOLD then
    (false, m)
  else
    let key : GKey := (guild_id, symbol)
    let last_announcement := alookup key m.announced_changes
    if pyNot last_announcement ∨ |pct_change| > |last_announcement.getD 0| then
      (true, { m with announced_changes := dictSet key pct_change m.announced_changes })
    else
      (false, m)

/-- `MarketMonitor.reset_daily_tracking` (`bot/main.py` lines 82-86). -/
def Monitor.reset_daily_tracking (m : Monitor) : Monitor :=
  { m with daily_report_sent := false, announced_changes := [] }

/-- `MarketMonitor.update_price_check_time`. -/
def Monitor.update_price_check_time (m : Monitor) (now : Time) : Monitor :=
  { m with last_price_check := some now }

/-- `MarketMonitor.update_daily_report_time`. -/
def Monitor.update_daily_report_time (m : Monitor) (now : Time) : Monitor :=
  { m with last_daily_report := some now }

/-- The announcement-gating algorithm exactly as claim C1 states it (from the
spec's words, to be compared with the source translation): below the threshold
return false and leave the map unchanged; otherwise, if no record exists or the
new magnitude strictly exceeds the recorded magnitude, store the new change and
return true; otherwise (ties included) return false and leave the map
unchanged. -/
def should_announce_change_spec (a : List (GKey × ℚ)) (g : Int) (s : String)
    (p : ℚ) : Bool × List (GKey × ℚ) :=
  if |p| < BIG_CHANGE_THRESHOLD then
    (false, a)
  else
    match alookup (g, s) a with
    | none => (true, dictSet (g, s) p a)
    | some last =>
      if |p| > |last| then (true, dictSet (g, s) p a) else (false, a)

/-- C1: `MarketMonitor.should_announce_change` behaves exactly as the claim's
algorithm on every state, guild, symbol and percentage change: below the
2.5 threshold it returns false leaving the announcement map unchanged;
otherwise it returns true and records `p` exactly when the key is absent or
`|p|` strictly exceeds the recorded magnitude, and returns false leaving the
map unchanged otherwise (in particular on an exact magnitude tie). -/
theorem claim_C1_should_announce_matches_spec (m : Monitor) (g : Int)
    (s : String) (p : ℚ) :
    m.should_announce_change g s p =
      ((should_announce_change_spec m.announced_changes g s p).1,
       { m with announced_changes :=
          (should_announce_change_spec m.announced_changes g s p).2 }) := by
  unfold Monitor.should_announce_change should_announce_change_spec
  by_cases hth : |p| < BIG_CHANGE_THRESHOLD
  · simp [hth]
  · have hpos : 0 < |p| := by
      have : BIG_CHANGE_THRESHOLD ≤ |p| := le_of_not_lt hth
      have : (0 : ℚ) < BIG_CHANGE_THRESHOLD := by norm_num [BIG_CHANGE_THRESHOLD]
      linarith [le_of_not_lt hth]
    cases hl : alookup (g, s) m.announced_changes with
    | none => simp [hth, hl, pyNot]
    | some last =>
      by_cases hz : last = 0
      · subst hz
        simp [hth, hl, pyNot, hpos]
      · by_cases hgt : |p| > |last|
        · simp [hth, hl, pyNot, hz, hgt]
        · simp [hth, hl, pyNot, hz, hgt]

/-- C7: after `reset_daily_tracking`, any change of magnitude at least the
2.5 threshold is announced again, for every guild, symbol and prior state —
in particular even when an announcement of magnitude `|p|` or greater had been
recorded for that (guild, symbol) before the reset. -/
theorem claim_C7_reset_reenables_announcements (m : Monitor) (g : Int)
    (s : String) (p : ℚ) (h : BIG_CHANGE_THRESHOLD ≤ |p|) :
    (m.reset_daily_tracking.should_announce_change g s p).1 = true := by
  unfold Monitor.reset_daily_tracking Monitor.should_announce_change
  simp [alookup, pyNot, not_lt.mpr h]

/-- Witness for C7: a 3.0% change after a 3.0% announcement was recorded and
then reset. -/
theorem claim_C7_witness :
    (((Monitor.initial.should_announce_change 1 "AAPL" 3).2.reset_daily_tracking).should_announce_change
        1 "AAPL" 3).1 = true :=
  claim_C7_reset_reenables_announcements
    (Monitor.initial.should_announce_change 1 "AAPL" 3).2 1 "AAPL" 3
    (by norm_num [BIG_CHANGE_THRESHOLD])

/-- States of the announcement map reachable from the freshly constructed
monitor through the two operations that touch it:
`should_announce_change` and `reset_daily_tracking`. -/
inductive AnnouncerReachable : Monitor → Prop where
  | init : AnnouncerReachable Monitor.initial
  | announce {m : Monitor} (g : Int) (s : String) (p : ℚ) :
      AnnouncerReachable m → AnnouncerReachable (m.should_announce_change g s p).2
  | reset {m : Monitor} :
      AnnouncerReachable m → AnnouncerReachable m.reset_daily_tracking

theorem alookup_mem {α β : Type} [DecidableEq α] {k : α} {v : β} :
    ∀ {l : List (α × β)}, alookup k l = some v → (k, v) ∈ l := by
  intro l
  induction l with
  | nil => intro h; simp [alookup] at h
  | cons e es ih =>
    intro h
    unfold alookup at h
    by_cases he : e.1 = k
    · rw [if_pos he] at h
      have hv : e.2 = v := by injection h
      have hkv : (k, v) = e := by
        cases e
        simp_all
      rw [hkv]
      exact List.mem_cons_self _ _
    · rw [if_neg he] at h
      exact List.mem_cons_of_mem _ (ih h)

theorem mem_dictSet {α β : Type} [DecidableEq α] {k : α} {v : β}
    {e : α × β} {m : List (α × β)} (h : e ∈ dictSet k v m) :
    e = (k, v) ∨ e ∈ m := by
  unfold dictSet at h
  rcases List.mem_cons.mp h with h1 | h1
  · exact Or.inl h1
  · exact Or.inr (List.mem_of_mem_filter h1)

/-- Every entry of a reachable announcement map has magnitude at least the
threshold. -/
theorem announcer_invariant {m : Monitor} (hr : AnnouncerReachable m) :
    ∀ e ∈ m.announced_changes, BIG_CHANGE_THRESHOLD ≤ |e.2| := by
  induction hr with
  | init => intro e he; simp [Monitor.initial] at he
  | announce g s p hr ih =>
    intro e he
    unfold Monitor.should_announce_change at he
    by_cases hth : |p| < BIG_CHANGE_THRESHOLD
    · simp [hth] at he
      exact ih e he
    · simp only [hth, if_false] at he
      split at he
      · rcases mem_dictSet he with h1 | h1
        · subst h1
          simpa using not_lt.mp hth
        · exact ih e h1
      · exact ih e he
  | reset hr ih =>
    intro e he
    simp [Monitor.reset_daily_tracking] at he

/-- C10: in every state of the announcement map reachable through
`should_announce_change` and `reset_daily_tracking` from the initial empty
map, every recorded value has magnitude at least the 2.5 threshold, hence is
nonzero; consequently the code's truthiness test `not last_announcement`
coincides with the key-absence check `isNone` on all reachable states. -/
theorem claim_C10_announced_values_above_threshold {m : Monitor}
    (hr : AnnouncerReachable m) :
    (∀ (g : Int) (s : String) (v : ℚ),
        alookup (g, s) m.announced_changes = some v →
        BIG_CHANGE_THRESHOLD ≤ |v| ∧ v ≠ 0) ∧
    (∀ (g : Int) (s : String),
        pyNot (alookup (g, s) m.announced_changes) =
          (alookup (g, s) m.announced_changes).isNone) := by
  have hinv := announcer_invariant hr
  constructor
  · intro g s v hv
    have hmem := alookup_mem hv
    have hle := hinv _ hmem
    refine ⟨hle, ?_⟩
    intro h0
    rw [h0] at hle
    norm_num [BIG_CHANGE_THRESHOLD] at hle
  · intro g s
    cases hv : alookup (g, s) m.announced_changes with
    | none => simp [pyNot]
    | some v =>
      have hne : v ≠ 0 := by
        intro h0
        have hle := hinv _ (alookup_mem hv)
        rw [h0] at hle
        norm_num [BIG_CHANGE_THRESHOLD] at hle
      simp [pyNot, hne]

/-- Witness for C10: the state reached by announcing a +3% change for
guild 1, symbol AAPL records the value 3, which is above the threshold and
nonzero, and the truthiness test agrees with `isNone` there. -/
theorem claim_C10_witness :
    BIG_CHANGE_THRESHOLD ≤ |(3 : ℚ)| ∧ (3 : ℚ) ≠ 0 ∧
      pyNot (alookup ((1 : Int), "AAPL")
          ((Monitor.initial.should_announce_change 1 "AAPL" 3).2).announced_changes) =
        (alookup ((1 : Int), "AAPL")
          ((Monitor.initial.should_announce_change 1 "AAPL" 3).2).announced_changes).isNone := by
  have h := claim_C10_announced_values_above_threshold
    (AnnouncerReachable.announce 1 "AAPL" 3 AnnouncerReachable.init)
  have hl : alookup ((1 : Int), "AAPL")
      ((Monitor.initial.should_announce_change 1 "AAPL" 3).2).announced_changes =
      some 3 := by
    norm_num [Monitor.should_announce_change, Monitor.initial, alookup, dictSet,
      pyNot, BIG_CHANGE_THRESHOLD]
  exact ⟨(h.1 1 "AAPL" 3 hl).1, (h.1 1 "AAPL" 3 hl).2, h.2 1 "AAPL"⟩

/-- Python exceptions that the market-data layer can raise.  All of them
derive from `Exception`, so every `except Exception` handler catches every
constructor alike. -/
inductive PyErr where
  | requestsError
  | marketDataException (symbol : String) (msg : String)
  | keyError (key : String)
  | zeroDivisionError
  | jsonDecodeError
deriving Repr, DecidableEq

/-- Parsed JSON body of a Finnhub quote response (`response.json()`).
Each field is present or absent; `err` models the error key of the payload. -/
structure QuoteResponse where
  err : Option String
  c : Option ℚ
  pc : Option ℚ
  t : Option Time
deriving Repr, DecidableEq

/-- The network collaborator: `requests.get(url).json()` for a symbol.
`Except.error` models a raised `requests` / JSON-decoding exception. -/
abbrev Net := String → Except PyErr QuoteResponse

/-- Model of `datetime.fromtimestamp` followed by formatting to a date
string: the calendar day containing the instant `t`. -/
def fromtimestampDay (t : Time) : Date := t / 86400

/-- State of `functools.lru_cache` on `fetch_closing_price`: successful
results memoized by symbol.  The decorator has no time-to-live; exceptions
are never cached.  Eviction at `maxsize=100` entries is not modelled: every
claim involves fewer than 100 distinct symbols, so eviction never fires. -/
abbrev LruCache := List (String × (ℚ × Date))

/-- State of the module-level `_price_cache` dict in `api/market_data.py`:
symbol to (price, fetch timestamp). -/
abbrev PriceCache := List (String × (ℚ × Time))

/-- `fetch_closing_price` (`api/market_data.py` lines 45-69), including its
`@lru_cache(maxsize=100)` decorator.  Returns the result, the updated lru
state, and the number of network requests performed (0 on a memoized hit,
1 otherwise).

The decorated body fetches the quote, raises `MarketDataException` when the
payload carries an error value or lacks the c or t keys, and otherwise
returns the previous close `float(data[pc])` together with the formatted day
of `data[t]`.  Note the code checks for the c and t keys but reads pc, so a
response lacking pc raises `KeyError` rather than `MarketDataException`. -/
def fetch_closing_price (net : Net) (lru : LruCache) (symbol : String) :
    Except PyErr (ℚ × Date) × LruCache × Nat :=
  match alookup symbol lru with
  | some res => (.ok res, lru, 0)
  | none =>
    match net symbol with
    | .error e => (.error e, lru, 1)
    | .ok data =>
      if data.err.isSome then
        (.error (.marketDataException symbol (data.err.getD "")), lru, 1)
      else if data.c.isNone ∨ data.t.isNone then
        (.error (.marketDataException symbol "No price data available"), lru, 1)
      else
        match data.pc, data.t with
        | some last_close, some t =>
          let res := (last_close, fromtimestampDay t)
          (.ok res, dictSet symbol res lru, 1)
        | none, _ => (.error (.keyError "pc"), lru, 1)
        | _, none => (.error (.keyError "t"), lru, 1)

/-- Body of `fetch_current_price` after the cache check has missed or found a
stale entry: the network fetch, validation, cache write and return
(`api/market_data.py` lines 83-105).  On any raise the cache is left exactly
as it was. -/
def fetch_current_price_refetch (net : Net) (cache : PriceCache) (now : Time)
    (symbol : String) : Except PyErr (ℚ × Date) × PriceCache × Nat :=
  match net symbol with
  | .error e => (.error e, cache, 1)
  | .ok data =>
    if data.err.isSome then
      (.error (.marketDataException symbol (data.err.getD "Unknown error")), cache, 1)
    else if data.c.isNone ∨ data.t.isNone then
      (.error (.marketDataException symbol "No price data available"), cache, 1)
    else
      match data.c, data.t with
      | some price, some t =>
        (.ok (price, fromtimestampDay t), dictSet symbol (price, now) cache, 1)
      | none, _ => (.error (.keyError "c"), cache, 1)
      | _, none => (.error (.keyError "t"), cache, 1)

/-- `fetch_current_price` (`api/market_data.py` lines 75-105): a cache hit
younger than `CACHE_TTL` is returned with no network call; otherwise the
refetch body runs.

On a hit the cached price is returned with the day of the cached timestamp;
on a miss the refetch body stores (price, now) under the symbol. -/
def fetch_current_price (net : Net) (cache : PriceCache) (now : Time)
    (symbol : String) : Except PyErr (ℚ × Date) × PriceCache × Nat :=
  match alookup symbol cache with
  | some (price, timestamp) =>
    if now - timestamp < CACHE_TTL then
      (.ok (price, fromtimestampDay timestamp), cache, 0)
    else
      fetch_current_price_refetch net cache now symbol
  | none => fetch_current_price_refetch net cache now symbol

/-- Loop of `MarketMonitor.fetch_closing_prices` over the symbol list
(`bot/main.py` lines 123-136): a per-symbol try/except around the lru-cached
`fetch_closing_price`, writing `yesterdays_closes[symbol]` and
`results[symbol]` on success and skipping the symbol on failure.  Returns
(results, updated closes dict, updated lru state, network request count).
The results dict is built in iteration order; when the symbol list repeats a
symbol the later occurrence carries the same price, so the first-match
`alookup` agrees with the Python dict. -/
def fetchClosingLoop (net : Net) :
    List String → List (String × ℚ) → LruCache →
    List (String × ℚ) × List (String × ℚ) × LruCache × Nat
  | [], closes, lru => ([], closes, lru, 0)
  | symbol :: rest, closes, lru =>
    match alookup symbol closes with
    | some price =>
      let r := fetchClosingLoop net rest closes lru
      ((symbol, price) :: r.1, r.2.1, r.2.2.1, r.2.2.2)
    | none =>
      match fetch_closing_price net lru symbol with
      | (.ok (price, _), lru1, n1) =>
        let r := fetchClosingLoop net rest (dictSet symbol price closes) lru1
        ((symbol, price) :: r.1, r.2.1, r.2.2.1, n1 + r.2.2.2)
      | (.error _, lru1, n1) =>
        let r := fetchClosingLoop net rest closes lru1
        (r.1, r.2.1, r.2.2.1, n1 + r.2.2.2)

/-- `MarketMonitor.fetch_closing_prices` (`bot/main.py` lines 114-137): once
per calendar day the `yesterdays_closes` dict is cleared and
`last_close_fetch` set to today, then each requested symbol is served from
the dict or fetched through the lru-cached `fetch_closing_price`. -/
def Monitor.fetch_closing_prices (m : Monitor) (net : Net) (lru : LruCache)
    (today : Date) (symbols : List String) :
    List (String × ℚ) × Monitor × LruCache × Nat :=
  let m1 := if m.last_close_fetch ≠ some today then
      { m with yesterdays_closes := [], last_close_fetch := some today }
    else m
  let r := fetchClosingLoop net symbols m1.yesterdays_closes lru
  (r.1, { m1 with yesterdays_closes := r.2.1 }, r.2.2.1, r.2.2.2)

theorem alookup_dictSet_self {α β : Type} [DecidableEq α] (k : α) (v : β)
    (m : List (α × β)) : alookup k (dictSet k v m) = some v := by
  simp [dictSet, alookup]

/-- Every branch of the refetch body performs exactly one network request. -/
theorem refetch_calls_one (net : Net) (cache : PriceCache) (now : Time)
    (s : String) : (fetch_current_price_refetch net cache now s).2.2 = 1 := by
  unfold fetch_current_price_refetch
  cases hnet : net s with
  | error e => rfl
  | ok data =>
    by_cases h1 : data.err.isSome
    · simp [h1]
    · by_cases h2 : data.c = none ∨ data.t = none
      · simp [h1, h2]
      · cases hc : data.c with
        | none => simp [hc] at h2
        | some price =>
          cases ht : data.t with
          | none => simp [ht] at h2
          | some t => simp [h1, hc, ht]

/-- A successful refetch wrote exactly the returned price, keyed under the
symbol with the current instant, to the cache. -/
theorem refetch_ok_cache (net : Net) (cache : PriceCache) (now : Time)
    (s : String) (p : ℚ) (d : Date)
    (hok : (fetch_current_price_refetch net cache now s).1 = .ok (p, d)) :
    (fetch_current_price_refetch net cache now s).2.1 =
      dictSet s (p, now) cache := by
  unfold fetch_current_price_refetch at hok ⊢
  cases hnet : net s with
  | error e => rw [hnet] at hok; simp at hok
  | ok data =>
    rw [hnet] at hok
    by_cases h1 : data.err.isSome
    · simp [h1] at hok
    · by_cases h2 : data.c = none ∨ data.t = none
      · simp [h1, h2] at hok
      · cases hc : data.c with
        | none => simp [hc] at h2
        | some price =>
          cases ht : data.t with
          | none => simp [ht] at h2
          | some t =>
            simp [h1, hc, ht] at hok ⊢
            rw [hok.1]

/-- A failed refetch left the cache untouched. -/
theorem refetch_error_cache (net : Net) (cache : PriceCache) (now : Time)
    (s : String) (e : PyErr)
    (herr : (fetch_current_price_refetch net cache now s).1 = .error e) :
    (fetch_current_price_refetch net cache now s).2.1 = cache := by
  unfold fetch_current_price_refetch at herr ⊢
  cases hnet : net s with
  | error e1 => rfl
  | ok data =>
    rw [hnet] at herr
    by_cases h1 : data.err.isSome
    · simp [h1]
    · by_cases h2 : data.c = none ∨ data.t = none
      · simp [h1, h2]
      · cases hc : data.c with
        | none => simp [hc] at h2
        | some price =>
          cases ht : data.t with
          | none => simp [ht] at h2
          | some t => simp [h1, hc, ht] at herr

/-- A failed `fetch_closing_price` call left the lru cache untouched and
did perform a network request (a memoized hit cannot fail). -/
theorem closing_error_lru (net : Net) (lru : LruCache) (s : String)
    (e : PyErr) (herr : (fetch_closing_price net lru s).1 = .error e) :
    (fetch_closing_price net lru s).2.1 = lru ∧
      (fetch_closing_price net lru s).2.2 = 1 := by
  unfold fetch_closing_price at herr ⊢
  cases hlru : alookup s lru with
  | some res => rw [hlru] at herr; simp at herr
  | none =>
    rw [hlru] at herr
    cases hnet : net s with
    | error e1 => exact ⟨rfl, rfl⟩
    | ok data =>
      rw [hnet] at herr
      by_cases h1 : data.err.isSome
      · simp [h1]
      · by_cases h2 : data.c = none ∨ data.t = none
        · simp [h1, h2]
        · cases hpc : data.pc with
          | none => simp [h1, h2, hpc]
          | some pc =>
            cases ht : data.t with
            | none => simp [ht] at h2
            | some t =>
              push_neg at h2
              simp [h1, h2.1, hpc, ht] at herr

/-- A failing `fetch_current_price` call leaves the `_price_cache` dict
exactly as it was (a fresh hit cannot fail; a miss or stale hit reaches the
refetch body, which writes only on success). -/
theorem current_error_cache (net : Net) (cache : PriceCache) (now : Time)
    (s : String) (e : PyErr)
    (herr : (fetch_current_price net cache now s).1 = .error e) :
    (fetch_current_price net cache now s).2.1 = cache := by
  unfold fetch_current_price at herr ⊢
  cases halk : alookup s cache with
  | none =>
    rw [halk] at herr
    exact refetch_error_cache net cache now s e herr
  | some pr =>
    obtain ⟨price, ts⟩ := pr
    rw [halk] at herr
    by_cases hf : now - ts < CACHE_TTL
    · simp [hf] at herr
    · simp only [hf, if_false] at herr ⊢
      exact refetch_error_cache net cache now s e herr

/-- C6: starting from a cache with no entry for the symbol, a first call at
`t1` performs exactly one network fetch, and a second call less than the
60-second TTL later performs zero network fetches and returns the stored
price — so the two calls together invoke the underlying fetch exactly once;
and a call for a symbol whose cached entry is at least TTL old performs the
network fetch again. -/
theorem claim_C6_current_price_ttl_cache (net : Net) (cache : PriceCache)
    (s s2 : String) (t1 t2 now ts : Time) (p p2 : ℚ) (d : Date)
    (hmiss : alookup s cache = none)
    (hok : (fetch_current_price net cache t1 s).1 = .ok (p, d))
    (_hsep : t1 ≤ t2) (hfresh : t2 - t1 < CACHE_TTL)
    (hsome : alookup s2 cache = some (p2, ts))
    (hexp : CACHE_TTL ≤ now - ts) :
    (fetch_current_price net cache t1 s).2.2 = 1 ∧
    fetch_current_price net (fetch_current_price net cache t1 s).2.1 t2 s =
      (.ok (p, fromtimestampDay t1),
       (fetch_current_price net cache t1 s).2.1, 0) ∧
    (fetch_current_price net cache now s2).2.2 = 1 := by
  have h1 : fetch_current_price net cache t1 s =
      fetch_current_price_refetch net cache t1 s := by
    unfold fetch_current_price
    rw [hmiss]
  have hok1 : (fetch_current_price_refetch net cache t1 s).1 = .ok (p, d) := by
    rw [← h1]; exact hok
  have hcache : (fetch_current_price net cache t1 s).2.1 =
      dictSet s (p, t1) cache := by
    rw [h1]
    exact refetch_ok_cache net cache t1 s p d hok1
  refine ⟨?_, ?_, ?_⟩
  · rw [h1]
    exact refetch_calls_one net cache t1 s
  · rw [hcache]
    unfold fetch_current_price
    rw [alookup_dictSet_self]
    simp [hfresh]
  · unfold fetch_current_price
    rw [hsome]
    have hnl : ¬(now - ts < CACHE_TTL) := not_lt.mpr hexp
    simp only [hnl, if_false]
    exact refetch_calls_one net cache now s2

/-- Network oracle for the C6 witness: AAPL answers with a valid quote,
everything else fails. -/
def c6Net : Net := fun s =>
  if s = "AAPL" then .ok ⟨none, some 151, some 150, some 0⟩
  else .error .requestsError

/-- Price cache for the C6 witness: one MSFT entry fetched at time 0. -/
def c6Cache : PriceCache := [("MSFT", (300, 0))]

/-- Witness for C6: AAPL miss at time 100 fetches once, a second AAPL call at
time 130 is a pure cache hit, and the stale MSFT entry at time 100 refetches. -/
theorem claim_C6_witness :
    (fetch_current_price c6Net c6Cache 100 "AAPL").2.2 = 1 ∧
    fetch_current_price c6Net (fetch_current_price c6Net c6Cache 100 "AAPL").2.1
        130 "AAPL" =
      (.ok (151, fromtimestampDay 100),
       (fetch_current_price c6Net c6Cache 100 "AAPL").2.1, 0) ∧
    (fetch_current_price c6Net c6Cache 100 "MSFT").2.2 = 1 :=
  claim_C6_current_price_ttl_cache c6Net c6Cache "AAPL" "MSFT" 100 130 100 0
    151 300 0 (by decide) (by rfl) (by decide) (by decide) (by decide)
    (by decide)

/-- C5: when the underlying fetch fails, no cache entry is written: the
current-price cache and the lru state are unchanged by the failing call, and
a same-day `fetch_closing_prices` call for a symbol not yet cached returns no
result, leaves the monitor and lru state exactly as they were, and performed
the one (failed) network request — so an identical next call retries the
fetch instead of hitting a cached error or stale entry. -/
theorem claim_C5_failed_fetch_writes_no_cache (net : Net) (cache : PriceCache)
    (now : Time) (s : String) (e1 e2 : PyErr) (m : Monitor) (lru : LruCache)
    (today : Date)
    (hcur : (fetch_current_price net cache now s).1 = .error e1)
    (hclose : (fetch_closing_price net lru s).1 = .error e2)
    (hmiss : alookup s m.yesterdays_closes = none)
    (hday : m.last_close_fetch = some today) :
    (fetch_current_price net cache now s).2.1 = cache ∧
    (fetch_closing_price net lru s).2.1 = lru ∧
    m.fetch_closing_prices net lru today [s] = ([], m, lru, 1) := by
  have h3 := closing_error_lru net lru s e2 hclose
  refine ⟨current_error_cache net cache now s e1 hcur, h3.1, ?_⟩
  rcases hrc : fetch_closing_price net lru s with ⟨r1, r2, r3⟩
  rw [hrc] at hclose h3
  simp only at hclose h3
  subst hclose
  obtain ⟨h31, h32⟩ := h3
  subst h31
  subst h32
  unfold Monitor.fetch_closing_prices fetchClosingLoop
  have hc : ¬(m.last_close_fetch ≠ some today) := by simp [hday]
  simp [hc, hmiss, hrc, fetchClosingLoop]

/-- Network oracle for the C5 witness: every request raises. -/
def c5Net : Net := fun _ => .error .requestsError

/-- Monitor state for the C5 witness: the daily refresh already ran today
(day 0) and the closes dict is empty. -/
def c5M : Monitor := { Monitor.initial with last_close_fetch := some 0 }

/-- Witness for C5: with a failing network, neither cache gains an entry and
the single-symbol closing fetch returns nothing while leaving all state
untouched. -/
theorem claim_C5_witness :
    (fetch_current_price c5Net [] 5 "AAPL").2.1 = [] ∧
    (fetch_closing_price c5Net [] "AAPL").2.1 = [] ∧
    c5M.fetch_closing_prices c5Net [] 0 ["AAPL"] = ([], c5M, [], 1) :=
  claim_C5_failed_fetch_writes_no_cache c5Net [] 5 "AAPL" .requestsError
    .requestsError c5M [] 0 (by rfl) (by rfl) (by decide) (by decide)

/-- Network oracle for the C2 evaluation: the AAPL quote carries previous
close 150 at timestamp 0; every other symbol fails. -/
def c2Net : Net := fun s =>
  if s = "AAPL" then .ok ⟨none, some 151, some 150, some 0⟩
  else .error .requestsError

/-- C2 (failing-input evaluation): on day 0 the monitor fetches the AAPL
previous close over the network (one request) and caches it; on day 1 —
the calendar date having changed — the monitor clears its own
`yesterdays_closes` dict and calls `fetch_closing_price` again, but the
`functools.lru_cache` on that function has no TTL, so the call performs
ZERO network requests and hands back the price fetched on day 0.  The
fresh-fetch-per-day obligation of the claim is therefore violated by the
code: its own once-per-day refresh is defeated by the lru memoization
underneath it. -/
theorem claim_C2_stale_previous_close_after_rollover :
    (Monitor.initial.fetch_closing_prices c2Net [] 0 ["AAPL"]).2.2.2 = 1 ∧
    ((Monitor.initial.fetch_closing_prices c2Net [] 0 ["AAPL"]).2.1.fetch_closing_prices
        c2Net (Monitor.initial.fetch_closing_prices c2Net [] 0 ["AAPL"]).2.2.1 1
        ["AAPL"]).2.2.2 = 0 ∧
    ((Monitor.initial.fetch_closing_prices c2Net [] 0 ["AAPL"]).2.1.fetch_closing_prices
        c2Net (Monitor.initial.fetch_closing_prices c2Net [] 0 ["AAPL"]).2.2.1 1
        ["AAPL"]).1 = [("AAPL", 150)] := by
  decide

/-- An alert delivered by `send_price_alert` (`bot/main.py` lines 278-294):
the embed carries the symbol, current price, previous close and percentage
change. -/
structure Alert where
  symbol : String
  current_price : ℚ
  close_price : ℚ
  pct_change : ℚ
deriving Repr, DecidableEq

/-- The channel-send collaborator (`channel.send`); `Except.error` models a
raised Discord exception (permissions, rate limit, missing channel). -/
abbrev Send := Alert → Except PyErr Unit

/-- Body of the per-symbol `try` block in `check_price_changes`
(`bot/main.py` lines 260-272): skip symbols without a closing price, fetch
the current price, compute `pct = (current - close) / close * 100`, gate
through `should_announce_change` and send the alert.  Returns the try-block
outcome (the alert delivered, if any) together with the monitor, cache and
network-request count; mutations made before a raise persist, so the updated
states are returned in the error case too.  A zero close price raises
`ZeroDivisionError` exactly as the Python float division would. -/
def processSymbol (net : Net) (send : Send) (guild_id : Int)
    (closing_prices : List (String × ℚ)) (now : Time) (symbol : String)
    (m : Monitor) (cache : PriceCache) :
    Except PyErr (Option Alert) × Monitor × PriceCache × Nat :=
  match alookup symbol closing_prices with
  | none => (.ok none, m, cache, 0)
  | some close_price =>
    match fetch_current_price net cache now symbol with
    | (.error e, cache1, n) => (.error e, m, cache1, n)
    | (.ok (current_price, _), cache1, n) =>
      if close_price = 0 then
        (.error .zeroDivisionError, m, cache1, n)
      else
        let pct_change := (current_price - close_price) / close_price * 100
        match m.should_announce_change guild_id symbol pct_change with
        | (true, m1) =>
          let alert : Alert := ⟨symbol, current_price, close_price, pct_change⟩
          match send alert with
          | .ok _ => (.ok (some alert), m1, cache1, n)
          | .error e => (.error e, m1, cache1, n)
        | (false, m1) => (.ok none, m1, cache1, n)

/-- `check_price_changes` (`bot/main.py` lines 257-275): iterates the
guild's tickers, each iteration wrapped in a try/except that logs the error
and continues, so the loop itself never raises.  Returns the delivered
alerts in order, the final monitor and cache states, and the total
network-request count. -/
def check_price_changes (net : Net) (send : Send) (guild_id : Int)
    (tickers : List String) (closing_prices : List (String × ℚ)) (now : Time)
    (m : Monitor) (cache : PriceCache) :
    List Alert × Monitor × PriceCache × Nat :=
  match tickers with
  | [] => ([], m, cache, 0)
  | symbol :: rest =>
    let r := processSymbol net send guild_id closing_prices now symbol m cache
    let rr := check_price_changes net send guild_id rest closing_prices now
      r.2.1 r.2.2.1
    match r.1 with
    | .ok (some alert) => (alert :: rr.1, rr.2.1, rr.2.2.1, r.2.2.2 + rr.2.2.2)
    | .ok none => (rr.1, rr.2.1, rr.2.2.1, r.2.2.2 + rr.2.2.2)
    | .error _ => (rr.1, rr.2.1, rr.2.2.1, r.2.2.2 + rr.2.2.2)

/-- Network oracle for the C8 scenario: AAPL trades at 154.50 against a
150.00 close, MSFT at 301.00 against a 300.00 close. -/
def c8Net : Net := fun s =>
  if s = "AAPL" then .ok ⟨none, some (309 / 2), some 150, some 0⟩
  else if s = "MSFT" then .ok ⟨none, some 301, some 300, some 0⟩
  else .error .requestsError

/-- Previous closes for the C8 scenario. -/
def c8Closes : List (String × ℚ) := [("AAPL", 150), ("MSFT", 300)]

/-- C8: the end-to-end polling pass over tickers AAPL and MSFT with closes
150.00 / 300.00 and current prices 154.50 / 301.00 emits exactly one alert,
for AAPL, with computed change +3.00% (AAPL moves +3%, MSFT only +0.33%,
below the 2.5 threshold). -/
theorem claim_C8_single_alert_scenario :
    (check_price_changes c8Net (fun _ => .ok ()) 1 ["AAPL", "MSFT"] c8Closes 0
        Monitor.initial []).1 =
      [⟨"AAPL", 309 / 2, 150, 3⟩] := by
  have h1 : ("AAPL" : String) = "MSFT" ↔ False := by
    constructor
    · intro h; exact absurd h (by decide)
    · intro h; exact h.elim
  have h2 : ("MSFT" : String) = "AAPL" ↔ False := by
    constructor
    · intro h; exact absurd h (by decide)
    · intro h; exact h.elim
  have h3 : |(1 : ℚ) / 3| < 5 / 2 := by
    rw [abs_of_pos (by norm_num)]
    norm_num
  norm_num [check_price_changes, processSymbol, fetch_current_price,
    fetch_current_price_refetch, c8Net, c8Closes, alookup, dictSet,
    Monitor.should_announce_change, Monitor.initial, pyNot,
    BIG_CHANGE_THRESHOLD, CACHE_TTL, fromtimestampDay, h1, h2, h3]

/-- The channels map loaded from `channels.json`: guild id to report channel
id (Python keys the dict by `str(guild.id)`; the ids are modelled directly
as integers). -/
abbrev Channels := List (Int × Int)

/-- Collaborators of one pass of the monitor loop: the market-open
predicate, the `load_channels` JSON read (which can raise on a corrupted
file), the Discord channel lookup (present or not), the per-guild
`get_guild_tickers` JSON read (re-read on every call; can raise), the
network, and the channel send. -/
structure MonitorOracles where
  market_open : Bool
  load_channels : Except PyErr Channels
  get_channel_ok : Int → Int → Bool
  get_guild_tickers : Int → Except PyErr (List String)
  net : Net
  send : Send

/-- The per-guild portion of the `while` loop body in
`monitor_price_changes` (`bot/main.py` lines 209-226).  There is no
try/except around a single guild, so an exception raised at guild scope
(here: `get_guild_tickers` re-reading its JSON file) propagates and aborts
the remaining guilds of this pass.  Returns the outcome (ok, or the first
uncaught exception), the alerts emitted so far, and the final monitor,
price-cache and lru states. -/
def guildLoop (o : MonitorOracles) (channels : Channels) (now : Time)
    (today : Date) :
    List Int → Monitor → PriceCache → LruCache →
    Except PyErr Unit × List Alert × Monitor × PriceCache × LruCache
  | [], m, cache, lru => (.ok (), [], m, cache, lru)
  | g :: rest, m, cache, lru =>
    match alookup g channels with
    | none => guildLoop o channels now today rest m cache lru
    | some channel_id =>
      if channel_id = 0 then guildLoop o channels now today rest m cache lru
      else if ¬ o.get_channel_ok g channel_id then
        guildLoop o channels now today rest m cache lru
      else
        match o.get_guild_tickers g with
        | .error e => (.error e, [], m, cache, lru)
        | .ok guild_tickers =>
          if guild_tickers.isEmpty then
            guildLoop o channels now today rest m cache lru
          else
            let rc := m.fetch_closing_prices o.net lru today guild_tickers
            let r := check_price_changes o.net o.send g guild_tickers rc.1 now
              rc.2.1 cache
            let rr := guildLoop o channels now today rest r.2.1 r.2.2.1 rc.2.2.1
            (rr.1, r.1 ++ rr.2.1, rr.2.2)

/-- The body of one `while True` iteration of `monitor_price_changes`
(`bot/main.py` lines 198-226) without the surrounding handler: the value of
the `try` block.  A raised exception (from `load_channels` or from a
guild-scope failure) appears as `Except.error`. -/
def monitor_body (o : MonitorOracles) (guilds : List Int) (now : Time)
    (today : Date) (m : Monitor) (cache : PriceCache) (lru : LruCache) :
    Except PyErr Unit × List Alert × Monitor × PriceCache × LruCache :=
  let m0 := m.update_price_check_time now
  if ¬ o.market_open then (.ok (), [], m0, cache, lru)
  else
    match o.load_channels with
    | .error e => (.error e, [], m0, cache, lru)
    | .ok channels => guildLoop o channels now today guilds m0 cache lru

/-- One full iteration of the `while True` loop of `monitor_price_changes`
including the `except Exception` handler at the loop boundary
(`bot/main.py` lines 228-234): an exception from the body is logged and
followed by a bounded sleep, and the loop continues.  The Bool flag records
whether the handler ran (true = an exception was caught and swallowed). -/
def monitor_iteration (o : MonitorOracles) (guilds : List Int) (now : Time)
    (today : Date) (m : Monitor) (cache : PriceCache) (lru : LruCache) :
    Bool × List Alert × Monitor × PriceCache × LruCache :=
  match monitor_body o guilds now today m cache lru with
  | (.ok _, alerts, m1, cache1, lru1) => (false, alerts, m1, cache1, lru1)
  | (.error _, alerts, m1, cache1, lru1) => (true, alerts, m1, cache1, lru1)

/-- Oracles for the C4 scenario: market open, guilds 1 and 2 with channels
10 and 20, guild 1's ticker-file read raising `JSONDecodeError`, guild 2
monitoring AAPL which is up 3% (over the c8 network oracle). -/
def c4O : MonitorOracles :=
  { market_open := true
    load_channels := .ok [(1, 10), (2, 20)]
    get_channel_ok := fun _ _ => true
    get_guild_tickers := fun g =>
      if g = 1 then .error .jsonDecodeError else .ok ["AAPL"]
    net := c8Net
    send := fun _ => .ok () }

/-- C4 counterexample: the claim says a failure for one guild never aborts
processing of the remaining guilds in that polling cycle.  In the cycle over
guilds [1, 2] where guild 1's `get_guild_tickers` raises, NO alert is
emitted at all — the exception is only caught at the loop boundary (the
handler flag is set) — whereas the identical cycle over guild 2 alone emits
the AAPL alert.  So guild 1's failure did abort guild 2's processing,
refuting the claim as stated. -/
theorem claim_C4_counterexample :
    (monitor_iteration c4O [1, 2] 0 0 Monitor.initial [] []).2.1 = [] ∧
    (monitor_iteration c4O [1, 2] 0 0 Monitor.initial [] []).1 = true ∧
    (monitor_iteration c4O [2] 0 0 Monitor.initial [] []).2.1 =
      [⟨"AAPL", 309 / 2, 150, 3⟩] := by
  refine ⟨rfl, rfl, ?_⟩
  have h2 : ("MSFT" : String) = "AAPL" ↔ False := by
    constructor
    · intro h; exact absurd h (by decide)
    · intro h; exact h.elim
  norm_num [monitor_iteration, monitor_body, guildLoop, c4O, c8Net, alookup,
    dictSet, check_price_changes, processSymbol, fetch_current_price,
    fetch_current_price_refetch, Monitor.fetch_closing_prices,
    fetchClosingLoop, fetch_closing_price, Monitor.should_announce_change,
    Monitor.update_price_check_time, Monitor.initial, pyNot,
    BIG_CHANGE_THRESHOLD, CACHE_TTL, fromtimestampDay, h2]

/-- C4 (amended): a fetch or send failure for one symbol never aborts
processing of the remaining symbols in that polling cycle — the per-symbol
try/except swallows the exception and the ticker loop continues over all
remaining tickers, from the state as already mutated before the raise (a
send failure keeps the announcement record and cache write made before it) —
and any exception that reaches the loop boundary (including a guild-scope
failure, which aborts only the remaining guilds of the current polling
cycle) is caught there: the iteration ends in the logged handler followed by
a bounded sleep instead of propagating, so the loop continues and no failure
escapes the subsystem. -/
theorem claim_C4_symbol_failures_contained (net : Net) (send : Send)
    (g : Int) (closes : List (String × ℚ)) (now : Time) (s : String)
    (rest : List String) (m : Monitor) (cache : PriceCache) (e : PyErr)
    (o : MonitorOracles) (guilds : List Int) (today : Date)
    (mi : Monitor) (cachei : PriceCache) (lru : LruCache) (e2 : PyErr)
    (hsym : (processSymbol net send g closes now s m cache).1 = .error e)
    (hbody : (monitor_body o guilds now today mi cachei lru).1 = .error e2) :
    check_price_changes net send g (s :: rest) closes now m cache =
      ((check_price_changes net send g rest closes now
          (processSymbol net send g closes now s m cache).2.1
          (processSymbol net send g closes now s m cache).2.2.1).1,
       (check_price_changes net send g rest closes now
          (processSymbol net send g closes now s m cache).2.1
          (processSymbol net send g closes now s m cache).2.2.1).2.1,
       (check_price_changes net send g rest closes now
          (processSymbol net send g closes now s m cache).2.1
          (processSymbol net send g closes now s m cache).2.2.1).2.2.1,
       (processSymbol net send g closes now s m cache).2.2.2 +
         (check_price_changes net send g rest closes now
            (processSymbol net send g closes now s m cache).2.1
            (processSymbol net send g closes now s m cache).2.2.1).2.2.2) ∧
    monitor_iteration o guilds now today mi cachei lru =
      (true, (monitor_body o guilds now today mi cachei lru).2) := by
  constructor
  · conv_lhs => rw [check_price_changes]
    rw [hsym]
  · rcases hb : monitor_body o guilds now today mi cachei lru with
      ⟨b1, b2, b3, b4, b5⟩
    rw [hb] at hbody
    simp only at hbody
    subst hbody
    unfold monitor_iteration
    rw [hb]

/-- Send collaborator for the C4 witness: every channel send raises. -/
def c4SendFail : Send := fun _ => .error .requestsError

/-- Witness for C4 (amended): AAPL is up 3%, its alert send raises after the
announcement record and cache write were made, yet the two-ticker pass
continues with MSFT from exactly that mutated state; and the c4 cycle whose
first guild raises ends in the loop-boundary handler with the body's state,
not in an escaped exception. -/
theorem claim_C4_witness :
    check_price_changes c8Net c4SendFail 1 ("AAPL" :: ["MSFT"])
        [("AAPL", 150)] 0 Monitor.initial [] =
      ((check_price_changes c8Net c4SendFail 1 ["MSFT"] [("AAPL", 150)] 0
          (processSymbol c8Net c4SendFail 1 [("AAPL", 150)] 0 "AAPL"
            Monitor.initial []).2.1
          (processSymbol c8Net c4SendFail 1 [("AAPL", 150)] 0 "AAPL"
            Monitor.initial []).2.2.1).1,
       (check_price_changes c8Net c4SendFail 1 ["MSFT"] [("AAPL", 150)] 0
          (processSymbol c8Net c4SendFail 1 [("AAPL", 150)] 0 "AAPL"
            Monitor.initial []).2.1
          (processSymbol c8Net c4SendFail 1 [("AAPL", 150)] 0 "AAPL"
            Monitor.initial []).2.2.1).2.1,
       (check_price_changes c8Net c4SendFail 1 ["MSFT"] [("AAPL", 150)] 0
          (processSymbol c8Net c4SendFail 1 [("AAPL", 150)] 0 "AAPL"
            Monitor.initial []).2.1
          (processSymbol c8Net c4SendFail 1 [("AAPL", 150)] 0 "AAPL"
            Monitor.initial []).2.2.1).2.2.1,
       (processSymbol c8Net c4SendFail 1 [("AAPL", 150)] 0 "AAPL"
          Monitor.initial []).2.2.2 +
         (check_price_changes c8Net c4SendFail 1 ["MSFT"] [("AAPL", 150)] 0
            (processSymbol c8Net c4SendFail 1 [("AAPL", 150)] 0 "AAPL"
              Monitor.initial []).2.1
            (processSymbol c8Net c4SendFail 1 [("AAPL", 150)] 0 "AAPL"
              Monitor.initial []).2.2.1).2.2.2) ∧
    monitor_iteration c4O [1, 2] 0 0 Monitor.initial [] [] =
      (true, (monitor_body c4O [1, 2] 0 0 Monitor.initial [] []).2) :=
  claim_C4_symbol_failures_contained c8Net c4SendFail 1 [("AAPL", 150)] 0
    "AAPL" ["MSFT"] Monitor.initial [] .requestsError
    c4O [1, 2] 0 Monitor.initial [] [] .jsonDecodeError
    (by norm_num [processSymbol, fetch_current_price,
      fetch_current_price_refetch, c8Net, c4SendFail, alookup, dictSet,
      Monitor.should_announce_change, Monitor.initial, pyNot,
      BIG_CHANGE_THRESHOLD, CACHE_TTL, fromtimestampDay])
    (by rfl)

/-- Per-ticker entry assembled by `fetch_market_data` (`bot/main.py`
lines 354-376): the closing price with the placeholder zero change fields
the code hardcodes. -/
structure StockData where
  price : ℚ
  change : ℚ
  change_percent : ℚ
deriving Repr, DecidableEq

/-- `fetch_market_data` (`bot/main.py` lines 354-376): a per-ticker
try/except around the lru-cached `fetch_closing_price`; a failing ticker is
logged and skipped.  Returns the data dict in iteration order, the lru state
and the network request count. -/
def fetch_market_data (net : Net) :
    List String → LruCache → List (String × StockData) × LruCache × Nat
  | [], lru => ([], lru, 0)
  | ticker :: rest, lru =>
    match fetch_closing_price net lru ticker with
    | (.ok (price, _), lru1, n1) =>
      let r := fetch_market_data net rest lru1
      ((ticker, ⟨price, 0, 0⟩) :: r.1, r.2.1, n1 + r.2.2)
    | (.error _, lru1, n1) =>
      let r := fetch_market_data net rest lru1
      (r.1, r.2.1, n1 + r.2.2)

/-- Collaborators of `send_daily_report`: the channels file load, the
Discord channel lookup, the per-guild ticker file read, the network, and the
report-embed channel send for a guild. -/
structure ReportOracles where
  load_channels : Except PyErr Channels
  get_channel_ok : Int → Int → Bool
  get_guild_tickers : Int → Except PyErr (List String)
  net : Net
  send_report : Int → Except PyErr Unit

/-- The per-guild loop of `send_daily_report` (`bot/main.py` lines
311-340): each guild's body runs under its own try/except, so any failure
(ticker file read, channel send) skips just that guild and the loop
continues.  Guilds without a channel, without tickers or without any market
data are skipped silently.  Returns the guilds a report embed was sent to,
the lru state and the network request count. -/
def reportGuildLoop (o : ReportOracles) (channels : Channels) :
    List Int → LruCache → List Int × LruCache × Nat
  | [], lru => ([], lru, 0)
  | g :: rest, lru =>
    match alookup g channels with
    | none => reportGuildLoop o channels rest lru
    | some channel_id =>
      if channel_id = 0 then reportGuildLoop o channels rest lru
      else if ¬ o.get_channel_ok g channel_id then
        reportGuildLoop o channels rest lru
      else
        match o.get_guild_tickers g with
        | .error _ => reportGuildLoop o channels rest lru
        | .ok guild_tickers =>
          if guild_tickers.isEmpty then reportGuildLoop o channels rest lru
          else
            let rd := fetch_market_data o.net guild_tickers lru
            if rd.1.isEmpty then
              let r := reportGuildLoop o channels rest rd.2.1
              (r.1, r.2.1, rd.2.2 + r.2.2)
            else
              match o.send_report g with
              | .ok _ =>
                let r := reportGuildLoop o channels rest rd.2.1
                (g :: r.1, r.2.1, rd.2.2 + r.2.2)
              | .error _ =>
                let r := reportGuildLoop o channels rest rd.2.1
                (r.1, r.2.1, rd.2.2 + r.2.2)

/-- `send_daily_report` (`bot/main.py` lines 297-351).  `today` is the
calendar date of `datetime.now` in US/Eastern; `now` the report completion
instant.  If a report was already sent today (`last_report_date == today`)
the call is a no-op.  Otherwise the guilds are iterated (per-guild failures
contained) and afterwards `last_report_date`, `daily_report_sent` and the
report time are recorded.  An exception escaping the guild loop — only the
`load_channels` read can raise there — reaches the outer handler, which
records only the report time.  Returns the guilds a report was sent to and
the new monitor and lru states. -/
def send_daily_report (o : ReportOracles) (guilds : List Int) (today : Date)
    (now : Time) (m : Monitor) (lru : LruCache) :
    List Int × Monitor × LruCache × Nat :=
  if m.last_report_date = some today then ([], m, lru, 0)
  else
    match o.load_channels with
    | .error _ => ([], m.update_daily_report_time now, lru, 0)
    | .ok channels =>
      let r := reportGuildLoop o channels guilds lru
      (r.1,
       { m.update_daily_report_time now with
          last_report_date := some today, daily_report_sent := true },
       r.2.1, r.2.2)

/-- A quote payload on which `fetch_closing_price` succeeds: no error field
and the c, pc and t keys all present. -/
def quoteValid (q : QuoteResponse) : Prop :=
  q.err = none ∧ q.c ≠ none ∧ q.pc ≠ none ∧ q.t ≠ none

theorem isEmpty_false_of_ne_nil {α : Type} {l : List α} (h : l ≠ []) :
    l.isEmpty = false := by
  cases l with
  | nil => exact absurd rfl h
  | cons a t => rfl

/-- Uniform success of the closing-price fetch: whatever the lru state, a
symbol whose network answer is a valid quote yields a price (memoized hit or
fresh fetch). -/
theorem closing_ok_of_valid (net : Net) (t : String) (q : QuoteResponse)
    (hq : net t = .ok q) (hv : quoteValid q) :
    ∀ lru : LruCache, ∃ p d, (fetch_closing_price net lru t).1 = .ok (p, d) := by
  intro lru
  unfold fetch_closing_price
  cases hlru : alookup t lru with
  | some res => exact ⟨res.1, res.2, rfl⟩
  | none =>
    rw [hq]
    obtain ⟨hverr, hvc, hvpc, hvt⟩ := hv
    cases hpc : q.pc with
    | none => exact absurd hpc hvpc
    | some pc =>
      cases ht : q.t with
      | none => exact absurd ht hvt
      | some tt =>
        have hc : q.c.isNone = false := by
          cases hcq : q.c with
          | none => exact absurd hcq hvc
          | some c => rfl
        refine ⟨pc, fromtimestampDay tt, ?_⟩
        simp [hverr, hc, hpc, ht]

/-- With one valid ticker in the list, `fetch_market_data` returns a
nonempty data dict, whatever the lru state. -/
theorem fetch_market_data_ne_nil (net : Net) (t : String) (q : QuoteResponse)
    (hq : net t = .ok q) (hv : quoteValid q) :
    ∀ (tickers : List String) (lru : LruCache), t ∈ tickers →
      (fetch_market_data net tickers lru).1 ≠ [] := by
  intro tickers
  induction tickers with
  | nil => intro lru ht; simp at ht
  | cons a rest ih =>
    intro lru ht
    unfold fetch_market_data
    rcases List.mem_cons.mp ht with rfl | ht2
    · obtain ⟨p, d, hok⟩ := closing_ok_of_valid net t q hq hv lru
      rcases hrc : fetch_closing_price net lru t with ⟨r1, r2, r3⟩
      rw [hrc] at hok
      simp only at hok
      subst hok
      simp
    · rcases hrc : fetch_closing_price net lru a with ⟨r1, r2, r3⟩
      cases r1 with
      | ok pr =>
        obtain ⟨pp, dd⟩ := pr
        simp
      | error e => exact ih r2 ht2

/-- A guild with a configured nonzero channel that exists, a nonempty ticker
list, at least one ticker with a valid quote, and a succeeding channel send
receives the report, whatever the lru state and whatever the other guilds in
the list do. -/
theorem reportGuildLoop_mem (o : ReportOracles) (channels : Channels)
    (g cid : Int) (tks : List String) (t : String) (q : QuoteResponse)
    (hcid : alookup g channels = some cid) (hcid0 : cid ≠ 0)
    (hok : o.get_channel_ok g cid = true)
    (htks : o.get_guild_tickers g = .ok tks) (hne : tks ≠ [])
    (ht : t ∈ tks) (hq : o.net t = .ok q) (hv : quoteValid q)
    (hsend : o.send_report g = .ok ()) :
    ∀ (guilds : List Int) (lru : LruCache), g ∈ guilds →
      g ∈ (reportGuildLoop o channels guilds lru).1 := by
  intro guilds
  induction guilds with
  | nil => intro lru hg; simp at hg
  | cons h rest ih =>
    intro lru hg
    rcases List.mem_cons.mp hg with rfl | hg2
    · have hne' := isEmpty_false_of_ne_nil hne
      have hd' := isEmpty_false_of_ne_nil
        (fetch_market_data_ne_nil o.net t q hq hv tks lru ht)
      simp [reportGuildLoop, hcid, hcid0, hok, htks, hne', hd', hsend]
    · simp only [reportGuildLoop]
      split
      · exact ih lru hg2
      · split
        · exact ih lru hg2
        · split
          · exact ih lru hg2
          · split
            · exact ih lru hg2
            · split
              · exact ih lru hg2
              · split
                · exact ih _ hg2
                · split
                  · exact List.mem_cons_of_mem _ (ih _ hg2)
                  · exact ih _ hg2

/-- C3: the daily report job sends at most one report per calendar day.
After an invocation on day `d` that ran to completion (the channels file
loaded), a second invocation on the same day performs no channel sends at
all; an invocation on a different day `d2` (the date having rolled over)
sends again — witnessed by any guild with a working channel, a nonempty
ticker list containing a fetchable ticker, and a succeeding send. -/
theorem claim_C3_at_most_one_report_per_day (o : ReportOracles)
    (channels : Channels) (guilds : List Int) (d d2 : Date)
    (now1 now2 now3 : Time) (m : Monitor) (lru : LruCache)
    (g cid : Int) (tks : List String) (t : String) (q : QuoteResponse)
    (hch : o.load_channels = .ok channels)
    (hd2 : d2 ≠ d)
    (hg : g ∈ guilds)
    (hcid : alookup g channels = some cid) (hcid0 : cid ≠ 0)
    (hok : o.get_channel_ok g cid = true)
    (htks : o.get_guild_tickers g = .ok tks) (hne : tks ≠ [])
    (ht : t ∈ tks) (hq : o.net t = .ok q) (hv : quoteValid q)
    (hsend : o.send_report g = .ok ()) :
    (send_daily_report o guilds d now2
        (send_daily_report o guilds d now1 m lru).2.1
        (send_daily_report o guilds d now1 m lru).2.2.1).1 = [] ∧
    g ∈ (send_daily_report o guilds d2 now3
        (send_daily_report o guilds d now1 m lru).2.1
        (send_daily_report o guilds d now1 m lru).2.2.1).1 := by
  have hm1 : (send_daily_report o guilds d now1 m lru).2.1.last_report_date =
      some d := by
    unfold send_daily_report
    by_cases hprev : m.last_report_date = some d
    · simp [hprev]
    · simp [hprev, hch, Monitor.update_daily_report_time]
  generalize hX : send_daily_report o guilds d now1 m lru = X
  rw [hX] at hm1
  constructor
  · simp [send_daily_report, hm1]
  · simp only [send_daily_report]
    rw [hm1]
    have hne2 : ¬(some d = some (d2 : Date)) := by
      intro hcon
      exact hd2 (Option.some.inj hcon).symm
    rw [if_neg hne2]
    simp only [hch]
    exact reportGuildLoop_mem o channels g cid tks t q hcid hcid0 hok htks
      hne ht hq hv hsend guilds _ hg

/-- Report oracles for the C3 witness: guild 1 reports to channel 10,
monitors AAPL (valid over the c8 network oracle) and its sends succeed. -/
def c3O : ReportOracles :=
  { load_channels := .ok [(1, 10)]
    get_channel_ok := fun _ _ => true
    get_guild_tickers := fun _ => .ok ["AAPL"]
    net := c8Net
    send_report := fun _ => .ok () }

/-- Witness for C3: over c3O, the second same-day (day 0) invocation sends
nothing and the day-1 invocation reports to guild 1 again. -/
theorem claim_C3_witness :
    (send_daily_report c3O [1] 0 2
        (send_daily_report c3O [1] 0 1 Monitor.initial []).2.1
        (send_daily_report c3O [1] 0 1 Monitor.initial []).2.2.1).1 = [] ∧
    1 ∈ (send_daily_report c3O [1] 1 3
        (send_daily_report c3O [1] 0 1 Monitor.initial []).2.1
        (send_daily_report c3O [1] 0 1 Monitor.initial []).2.2.1).1 :=
  claim_C3_at_most_one_report_per_day c3O [(1, 10)] [1] 0 1 1 2 3
    Monitor.initial [] 1 10 ["AAPL"] "AAPL"
    ⟨none, some (309 / 2), some 150, some 0⟩
    (by rfl) (by decide) (by decide) (by decide) (by decide) (by rfl)
    (by rfl) (by decide) (by decide) (by rfl)
    (by exact ⟨rfl, by decide, by decide, by decide⟩) (by rfl)

/-- State of the APScheduler engine as the bot uses it: whether it is
running, and the registered job ids in order.  `add_job` with
`replace_existing=True` re-registers a job id; `shutdown` stops the engine
(its in-memory job store keeps the registered jobs); `start` starts it. -/
structure Scheduler where
  running : Bool
  jobs : List String
deriving Repr, DecidableEq

/-- `scheduler.add_job(..., id=jid, replace_existing=True)`. -/
def Scheduler.add_job (sch : Scheduler) (jid : String) : Scheduler :=
  { sch with jobs := sch.jobs.filter (fun j => decide (j ≠ jid)) ++ [jid] }

/-- `scheduler.start()`. -/
def Scheduler.start (sch : Scheduler) : Scheduler := { sch with running := true }

/-- `scheduler.shutdown()` (a raise on a never-started engine is swallowed
by the code's inner `except: pass`, so the operation is total here). -/
def Scheduler.shutdown (sch : Scheduler) : Scheduler :=
  { sch with running := false }

/-- `MarketMonitor.restart_scheduler_if_needed` (`bot/main.py` lines
139-187), invoked by the `!restart` command and the watchdog: when the
engine is not running, shut it down, re-register the two cron jobs by id
with replace-existing semantics, and start it; when it is already running,
do nothing. -/
def restart_scheduler_if_needed (sch : Scheduler) : Scheduler :=
  if ¬sch.running then
    ((sch.shutdown.add_job "daily_market_report").add_job "daily_reset").start
  else sch

/-- The scheduler initialization in `on_ready` (`bot/main.py` lines
416-459): shut down a running engine, register the two jobs with
replace-existing semantics, start. -/
def on_ready_init (sch : Scheduler) : Scheduler :=
  let sch1 := if sch.running then sch.shutdown else sch
  ((sch1.add_job "daily_market_report").add_job "daily_reset").start

/-- Scheduler states reachable in this program: from the fresh engine,
through the `on_ready` initialization and through (manual `!restart` or
watchdog) restarts — the only places the program touches the engine. -/
inductive SchedReachable : Scheduler → Prop where
  | init : SchedReachable ⟨false, []⟩
  | ready {s : Scheduler} :
      SchedReachable s → SchedReachable (on_ready_init s)
  | restart {s : Scheduler} :
      SchedReachable s → SchedReachable (restart_scheduler_if_needed s)

/-- Reachable engine states hold no foreign jobs: the job list is empty or
exactly the two cron jobs, and a running engine always has both. -/
theorem sched_invariant {s : Scheduler} (hr : SchedReachable s) :
    (s.jobs = [] ∨ s.jobs = ["daily_market_report", "daily_reset"]) ∧
    (s.running = true → s.jobs = ["daily_market_report", "daily_reset"]) := by
  induction hr with
  | init => exact ⟨Or.inl rfl, by intro h; simp at h⟩
  | ready hr ih =>
    rename_i s
    obtain ⟨b, jobs⟩ := s
    rcases ih.1 with h | h <;> simp only at h <;> subst h <;> cases b <;>
      exact ⟨Or.inr (by decide), fun _ => by decide⟩
  | restart hr ih =>
    rename_i s
    obtain ⟨b, jobs⟩ := s
    cases b
    · rcases ih.1 with h | h <;> simp only at h <;> subst h <;>
        exact ⟨Or.inr (by decide), fun _ => by decide⟩
    · have hj := ih.2 rfl
      simp only at hj
      have hnoop : restart_scheduler_if_needed ⟨true, jobs⟩ = ⟨true, jobs⟩ := by
        simp [restart_scheduler_if_needed]
      rw [hnoop]
      exact ⟨Or.inr hj, fun _ => hj⟩

/-- C9: the operator-triggered force restart is idempotent over every
scheduler state the program can be in: after it completes the engine is
running with exactly the two named jobs registered (no duplicates), and a
repeated invocation changes nothing. -/
theorem claim_C9_restart_idempotent {s : Scheduler} (hr : SchedReachable s) :
    (restart_scheduler_if_needed s).running = true ∧
    (restart_scheduler_if_needed s).jobs =
      ["daily_market_report", "daily_reset"] ∧
    restart_scheduler_if_needed (restart_scheduler_if_needed s) =
      restart_scheduler_if_needed s := by
  have hinv := sched_invariant hr
  obtain ⟨b, jobs⟩ := s
  cases b
  · rcases hinv.1 with h | h <;> simp only at h <;> subst h <;>
      exact ⟨by decide, by decide, by decide⟩
  · have hj := hinv.2 rfl
    simp only at hj
    have hnoop : restart_scheduler_if_needed ⟨true, jobs⟩ = ⟨true, jobs⟩ := by
      simp [restart_scheduler_if_needed]
    rw [hnoop]
    exact ⟨rfl, hj, hnoop⟩

/-- Witness for C9: restarting the fresh (never-started) engine leaves it
running with exactly the two jobs, and a second restart is a no-op. -/
theorem claim_C9_witness :
    (restart_scheduler_if_needed ⟨false, []⟩).running = true ∧
    (restart_scheduler_if_needed ⟨false, []⟩).jobs =
      ["daily_market_report", "daily_reset"] ∧
    restart_scheduler_if_needed (restart_scheduler_if_needed ⟨false, []⟩) =
      restart_scheduler_if_needed ⟨false, []⟩ :=
  claim_C9_restart_idempotent SchedReachable.init

end VertBot
